import Mathlib

/-!
Verification of the buffered bulk-loading pipeline implemented in
`lib/RedshiftBulkInsert.js` (the `RedshiftBulkInsert` engine) and of the
companion retry policy.  The JavaScript source is shallowly embedded here:
pure formatting functions become Lean functions on `String`/`List Char`,
the loader's mutable instance fields become an explicit `LoaderState`
record threaded through the operations, and the asynchronous flush
pipeline becomes a function from the outcomes of its external calls to
the trace of actions it performs.
-/

namespace RBI

/-! ## JavaScript scalar values

A row is an ordered sequence of JS scalars.  We model the scalars that the
encoder distinguishes: `null`, `undefined`, strings, numbers (integers or
`NaN`) and booleans.  Numbers and booleans are rendered by JS string
coercion (`value + ''`). -/

inductive JSNum where
  | int (i : Int)
  | nan
  deriving DecidableEq, Repr

inductive JSValue where
  | vNull
  | vUndef
  | vStr (s : String)
  | vNum (n : JSNum)
  | vBool (b : Bool)
  deriving DecidableEq, Repr

/-! ### Decimal rendering of naturals (JS number-to-string coercion)

`'' + n` in JS renders an integral number in decimal.  We define the
rendering from scratch so that we can prove it injective via an explicit
decoding function. -/

def digitChar (d : Nat) : Char := Char.ofNat (48 + d)

def natToDigitsAux : Nat → Nat → List Char → List Char
  | 0, _, acc => acc
  | fuel + 1, n, acc =>
    if n = 0 then acc else natToDigitsAux fuel (n / 10) (digitChar (n % 10) :: acc)

/-- Decimal rendering of a natural number, as JS `('' + n)` produces it.
The first argument of `natToDigitsAux` is fuel; `n` itself is always
enough of it. -/
def jsNatRepr (n : Nat) : String :=
  if n = 0 then "0" else String.mk (natToDigitsAux n n [])

/-- Number of decimal digits (0 for 0), used to state the decode lemma. -/
def digitLen : Nat → Nat
  | 0 => 0
  | n + 1 => digitLen ((n + 1) / 10) + 1
  decreasing_by exact Nat.div_lt_self (Nat.succ_pos n) (by omega)

def fromDigitsAux (a : Nat) : List Char → Nat
  | [] => a
  | c :: cs => fromDigitsAux (a * 10 + (c.toNat - 48)) cs

/-- Decode a decimal string back to the natural number it renders. -/
def decodeDigits (s : String) : Nat := fromDigitsAux 0 s.data


/-- JS string coercion of an integer. -/
def jsIntRepr (i : Int) : String :=
  match i with
  | Int.ofNat n => jsNatRepr n
  | Int.negSucc n => "-" ++ jsNatRepr (n + 1)

/-- JS string coercion `value + ''` of a number. -/
def jsNumToString (n : JSNum) : String :=
  match n with
  | JSNum.int i => jsIntRepr i
  | JSNum.nan => "NaN"

/-- JS string coercion `value + ''` of a boolean. -/
def jsBoolToString (b : Bool) : String := if b then "true" else "false"

/-! ## Line Encoder (`_escapeValue`, `_rowToLine`, `insert` write)

Source constants:
`DELIMITER = '|'`, `ESCAPE = '\\'`, `NEWLINE = '\n'`, `NULL = '\\N'`. -/

def DELIMITER : String := "|"

def NEWLINE : String := "\n"

def NULLTOKEN : String := "\\N"

/-- `value.replace(/\\/g, '\\\\')`: every backslash becomes two.  The regex
replaces single characters globally, so it acts character by character. -/
def escapeBackslashes : List Char → List Char
  | [] => []
  | c :: cs =>
    if c = '\\' then '\\' :: '\\' :: escapeBackslashes cs
    else c :: escapeBackslashes cs

/-- `.replace(/\|/g, '\\|')`: every pipe becomes backslash-pipe. -/
def escapePipes : List Char → List Char
  | [] => []
  | c :: cs =>
    if c = '|' then '\\' :: '|' :: escapePipes cs
    else c :: escapePipes cs

/-- `RedshiftBulkInsert.prototype._escapeValue`:
null/undefined map to the `\N` token; strings get backslashes doubled and
then pipes escaped; anything else is coerced with `value + ''`. -/
def _escapeValue (value : JSValue) : String :=
  match value with
  | JSValue.vNull => NULLTOKEN
  | JSValue.vUndef => NULLTOKEN
  | JSValue.vStr s => String.mk (escapePipes (escapeBackslashes s.data))
  | JSValue.vNum n => jsNumToString n
  | JSValue.vBool b => jsBoolToString b

/-- The loop body of `_rowToLine`: push each escaped value onto `lineBuff`. -/
def rowToLineLoop : List JSValue → List String → List String
  | [], lineBuff => lineBuff
  | v :: vs, lineBuff => rowToLineLoop vs (lineBuff ++ [_escapeValue v])

/-- `RedshiftBulkInsert.prototype._rowToLine`: escape each positional value
into `lineBuff`, then `lineBuff.join(DELIMITER)`. -/
def _rowToLine (row : List JSValue) : String :=
  String.intercalate DELIMITER (rowToLineLoop row [])

/-- The text `insert` hands to the file writer: `line + NEWLINE`. -/
def insertedText (row : List JSValue) : String := _rowToLine row ++ NEWLINE

/-! ### Characterization of the encoder  -/

/-- The per-character block the two-pass escaper amounts to. -/
def escBlock (c : Char) : List Char :=
  if c = '\\' then ['\\', '\\'] else if c = '|' then ['\\', '|'] else [c]


/-! ## Bulk Loader configuration and state

The constructor's option fields that the claims touch.  `pid` is
`process.pid`; clock readings (`Date.now()`) are supplied as explicit
inputs to each operation, since they come from the environment. -/

structure LoaderConfig where
  tableName : String
  fields : List String
  pathToLogs : String
  threshold : Nat
  awsBucketName : String
  awsAccessKeyId : String
  awsSecretAccessKey : String
  pid : Nat
  deriving DecidableEq, Repr

/-- `path.join(dir, name)` for a plain directory and file name. -/
def pathJoin (dir name : String) : String := dir ++ "/" ++ name

/-- `RedshiftBulkInsert.prototype._getLogFileName`:
`this._tableName + '_' + this._date.now() + '_' + this._pid + this._suffix`
with `this._suffix = '.log'`; JS coerces the numbers to decimal. -/
def _getLogFileName (cfg : LoaderConfig) (now : Nat) : String :=
  cfg.tableName ++ "_" ++ jsNatRepr now ++ "_" ++ jsNatRepr cfg.pid ++ ".log"

/-- The mutable instance fields of the loader plus bookkeeping for what the
instance has emitted to the outside world.  `timers` is the list of armed
`setTimeout` handles not yet fired or cleared; `ref` is `this.ref`, the
handle stored by `startIdleFlushMonitor`.  `rotations` records, per
rotation, the captured old file name and the clock at capture (the spawned
flush operation); `generated` records each file name a rotation generated;
`written` records each string handed to the file writer. -/
structure LoaderState where
  numberOfEventsInFile : Nat
  fileName : String
  activeFlushOps : Int
  timers : List Nat
  ref : Option Nat
  nextTimerId : Nat
  rotations : List (String × Nat)
  generated : List String
  written : List String
  deriving DecidableEq, Repr

/-- `RedshiftBulkInsert.prototype.startIdleFlushMonitor`:
`this.ref = setTimeout(flush, this._idleFlushPeriod)` — arms a fresh timer
and remembers (only) its handle. -/
def startIdleFlushMonitor (s : LoaderState) : LoaderState :=
  { s with timers := s.nextTimerId :: s.timers,
           ref := some s.nextTimerId,
           nextTimerId := s.nextTimerId + 1 }

/-- `clearTimeout(this.ref)`: cancels the timer `this.ref` points at if it
is still pending; clearing an already-fired or cleared handle is a no-op. -/
def clearTimeoutRef (s : LoaderState) : LoaderState :=
  { s with timers := match s.ref with
      | some r => s.timers.erase r
      | none => s.timers }

/-- `RedshiftBulkInsert.prototype.flush`: when the buffer holds events it
increments `activeFlushOps`, captures the old file name, generates a new
one from the clock, redirects the writer, dispatches the read of the old
file (spawning the flush operation) and zeroes the counter; in all cases
it ends with `startIdleFlushMonitor`. -/
def flush (cfg : LoaderConfig) (now : Nat) (s : LoaderState) : LoaderState :=
  let s1 :=
    if 0 < s.numberOfEventsInFile then
      { s with activeFlushOps := s.activeFlushOps + 1,
               rotations := s.rotations ++ [(s.fileName, now)],
               generated := s.generated ++ [_getLogFileName cfg now],
               fileName := _getLogFileName cfg now,
               numberOfEventsInFile := 0 }
    else s
  startIdleFlushMonitor s1

/-- `RedshiftBulkInsert.prototype.insert` followed by `_checkThreshold`:
write the encoded line plus newline, increment the counter, and when the
counter reaches the threshold cancel the pending idle timer and flush. -/
def insert (cfg : LoaderConfig) (now : Nat) (row : List JSValue) (s : LoaderState) :
    LoaderState :=
  let s1 := { s with written := s.written ++ [insertedText row],
                     numberOfEventsInFile := s.numberOfEventsInFile + 1 }
  if cfg.threshold ≤ s1.numberOfEventsInFile then flush cfg now (clearTimeoutRef s1)
  else s1

/-- The idle timer with handle `t` fires: it is consumed (no longer
pending) and its callback runs `flush`. -/
def fireTimer (cfg : LoaderConfig) (t : Nat) (now : Nat) (s : LoaderState) : LoaderState :=
  if t ∈ s.timers then flush cfg now { s with timers := s.timers.erase t }
  else s

/-- `RedshiftBulkInsert.prototype.close`: `clearTimeout(this.ref)` and end
the writer. -/
def close (s : LoaderState) : LoaderState := clearTimeoutRef s

/-- The constructor: zeroed counters, an initial log file name from the
clock, and one armed idle timer. -/
def initState (cfg : LoaderConfig) (now : Nat) : LoaderState :=
  startIdleFlushMonitor
    { numberOfEventsInFile := 0,
      fileName := _getLogFileName cfg now,
      activeFlushOps := 0,
      timers := [],
      ref := none,
      nextTimerId := 0,
      rotations := [],
      generated := [],
      written := [] }

/-! ## The Flush Operation pipeline

`flush` dispatches `fs.readFile(oldPath, sendToS3)`; the callbacks
`_sendToS3`, `_onSentToS3`, `_removeLogFile`'s unlink callback and
`_onSentCopyToRedshift` then drive the operation.  We embed one
operation's execution as the trace of externally visible actions it
performs, as a function of the outcomes of its four external calls.  The
unlink and the load command are dispatched together and their completions
may interleave either way, chosen by `unlinkCompletesFirst`. -/

/-- `RedshiftBulkInsert.prototype._getCopyQuery`, the exact concatenation
the source performs. -/
def _getCopyQuery (cfg : LoaderConfig) (fileName : String) : String :=
  "COPY "
    ++ cfg.tableName
    ++ " ("
    ++ String.intercalate ", " cfg.fields
    ++ ")"
    ++ " FROM "
    ++ "'"
    ++ "s3://"
    ++ cfg.awsBucketName
    ++ "/"
    ++ fileName
    ++ "'"
    ++ " CREDENTIALS "
    ++ "'aws_access_key_id="
    ++ cfg.awsAccessKeyId
    ++ ";"
    ++ "aws_secret_access_key="
    ++ cfg.awsSecretAccessKey
    ++ "'"
    ++ " ESCAPE"

/-- One `emit('flush', err, result, '', start, this)` payload, field by
field in the emitted argument order.  `loaderId` stands for `this`. -/
structure FlushEvent where
  err : Option String
  result : Option String
  srcFileArg : String
  start : Nat
  loaderId : Nat
  deriving DecidableEq, Repr

/-- The payload `_decrimentActiveFlushOpsAndEmitFlushEvent(start, err,
result)` emits; the same call also performs the decrement, so emitted
events and decrements are in bijection. -/
def flushEventPayload (loaderId start : Nat) (err result : Option String) : FlushEvent :=
  { err := err, result := result, srcFileArg := "", start := start, loaderId := loaderId }

/-- Externally visible actions of one flush operation. -/
inductive Action where
  | readCall (epath : String)
  | uploadCall (key bucket : String)
  | unlinkCall (epath : String)
  | loadCall (query : String)
  | emitFlush (ev : FlushEvent)
  deriving DecidableEq, Repr

/-- Outcomes of the external calls a flush operation makes, plus the
interleaving choice for the two concurrent completions. -/
structure Outcomes where
  readErr : Option String
  body : Option String
  uploadErr : Option String
  uploadData : Option String
  unlinkErr : Option String
  loadErr : Option String
  loadResult : Option String
  unlinkCompletesFirst : Bool
  deriving DecidableEq, Repr

/-- The trace of one flush operation over the captured file `fileName`
with start timestamp `start`, following `_sendToS3` → `_onSentToS3` →
(`_removeLogFile`'s unlink callback, `_onSentCopyToRedshift`). -/
def runFlushOp (cfg : LoaderConfig) (loaderId : Nat) (fileName : String) (start : Nat)
    (o : Outcomes) : List Action :=
  Action.readCall (pathJoin cfg.pathToLogs fileName) ::
    match o.readErr with
    | some e => [Action.emitFlush (flushEventPayload loaderId start (some e) o.body)]
    | none =>
      Action.uploadCall fileName cfg.awsBucketName ::
        match o.uploadErr with
        | some e => [Action.emitFlush (flushEventPayload loaderId start (some e) o.uploadData)]
        | none =>
          Action.unlinkCall (pathJoin cfg.pathToLogs fileName) ::
          Action.loadCall (_getCopyQuery cfg fileName) ::
            (let unlinkEv := Action.emitFlush (flushEventPayload loaderId start o.unlinkErr none)
             let loadEv := Action.emitFlush (flushEventPayload loaderId start o.loadErr o.loadResult)
             if o.unlinkCompletesFirst then [unlinkEv, loadEv] else [loadEv, unlinkEv])

/-- The events emitted along a trace; each coincides with one decrement of
`activeFlushOps`. -/
def emittedEvents (trace : List Action) : List FlushEvent :=
  trace.filterMap fun a =>
    match a with
    | Action.emitFlush ev => some ev
    | _ => none

/-- Whether a trace deletes the local file at `epath`. -/
def deletesFile (trace : List Action) (epath : String) : Prop :=
  Action.unlinkCall epath ∈ trace

instance (trace : List Action) (epath : String) : Decidable (deletesFile trace epath) :=
  inferInstanceAs (Decidable (Action.unlinkCall epath ∈ trace))

/-! ## Spec-side command shapes (for the refinement comparison of C7) -/

/-- The bulk-load command shape exactly as the spec writes it:
`COPY <table>(<field1>, <field2>, ...) FROM 's3://<bucket>/<key>'
CREDENTIALS 'aws_access_key_id=<id>;aws_secret_access_key=<secret>'
ESCAPE` — note: no character between the table name and `(`. -/
def copyQuerySpecShape (cfg : LoaderConfig) (key : String) : String :=
  "COPY " ++ cfg.tableName ++ "(" ++ String.intercalate ", " cfg.fields
    ++ ") FROM 's3://" ++ cfg.awsBucketName ++ "/" ++ key
    ++ "' CREDENTIALS 'aws_access_key_id=" ++ cfg.awsAccessKeyId
    ++ ";aws_secret_access_key=" ++ cfg.awsSecretAccessKey ++ "' ESCAPE"

/-- The same shape with a single space between the table name and `(`,
which is what the source's `'COPY ' + tableName + ' (' + ...` produces. -/
def copyQuerySpacedShape (cfg : LoaderConfig) (key : String) : String :=
  "COPY " ++ cfg.tableName ++ " (" ++ String.intercalate ", " cfg.fields
    ++ ") FROM 's3://" ++ cfg.awsBucketName ++ "/" ++ key
    ++ "' CREDENTIALS 'aws_access_key_id=" ++ cfg.awsAccessKeyId
    ++ ";aws_secret_access_key=" ++ cfg.awsSecretAccessKey ++ "' ESCAPE"

/-! ## Retry Policy

Modelled from the spec: the implementation file `BulkInsertRetryPolicy.js`
(`ephemeralRetryPolicy`) is not under `src/` — only its unit test is — so
the policy is embedded from §4.4 of the spec: on each observed failure it
computes `delay = min(maxDelay, retryCalculation(attempt, timeSlot))` and
schedules a retried `flush()` only while the per-operation attempt counter
is below `maxRetries`. -/

structure RetryOptions where
  maxRetries : Nat
  retryCalculation : Nat → Nat → Nat
  timeSlot : Nat
  maxDelay : Nat

/-- Modelled from the spec: the clamped delay for a given attempt number,
`min(maxDelay, retryCalculation(attempt, timeSlot))`. -/
def retryDelay (o : RetryOptions) (attempt : Nat) : Nat :=
  min o.maxDelay (o.retryCalculation attempt o.timeSlot)

/-- Modelled from the spec: the policy's reaction to one observed failure
at the given attempt count — the scheduled delay, or nothing once the
attempt counter is at or above `maxRetries`. -/
def onFlushOpFailure (o : RetryOptions) (attempt : Nat) : Option Nat :=
  if attempt < o.maxRetries then some (retryDelay o attempt) else none

/-- Modelled from the spec: the delays of the retried flushes scheduled
over the first `failureCount` failures of one always-failing Flush
Operation lineage (attempt `k` is the `k`-th observed failure). -/
def scheduledRetries (o : RetryOptions) (failureCount : Nat) : List Nat :=
  (List.range failureCount).filterMap (onFlushOpFailure o)

/-! ## Concrete fixtures used to evaluate the model -/

/-- A loader configured like the README's example: threshold 2. -/
def cfgEx : LoaderConfig :=
  { tableName := "events", fields := ["a", "b"], pathToLogs := "logs",
    threshold := 2, awsBucketName := "bkt", awsAccessKeyId := "AKID",
    awsSecretAccessKey := "SECRET", pid := 7 }

/-- A loader with rotation threshold 1, so every insert rotates. -/
def cfgT1 : LoaderConfig :=
  { tableName := "t1", fields := ["a"], pathToLogs := "logs",
    threshold := 1, awsBucketName := "bkt", awsAccessKeyId := "AKID",
    awsSecretAccessKey := "SECRET", pid := 9 }

/-- Outcomes of a fully successful flush operation. -/
def oSuccess : Outcomes :=
  { readErr := none, body := some "payload", uploadErr := none, uploadData := none,
    unlinkErr := none, loadErr := none, loadResult := some "ok",
    unlinkCompletesFirst := true }

/-- Outcomes of an operation whose read stage fails. -/
def oReadFail : Outcomes :=
  { readErr := some "ENOENT", body := none, uploadErr := none, uploadData := none,
    unlinkErr := none, loadErr := none, loadResult := none,
    unlinkCompletesFirst := true }

/-- Outcomes of an operation whose upload stage fails. -/
def oUploadFail : Outcomes :=
  { readErr := none, body := some "payload", uploadErr := some "S3Error",
    uploadData := none, unlinkErr := none, loadErr := none, loadResult := none,
    unlinkCompletesFirst := true }

/-- Outcomes where upload succeeds but the load command fails. -/
def oLoadFail : Outcomes :=
  { readErr := none, body := some "payload", uploadErr := none, uploadData := none,
    unlinkErr := none, loadErr := some "copy failed", loadResult := none,
    unlinkCompletesFirst := false }

/-- A concrete retry configuration: binary backoff over a 3 ms time slot,
clamped at 5 ms, at most 2 retries. -/
def oEx : RetryOptions :=
  { maxRetries := 2, retryCalculation := fun attempt slot => 2 ^ attempt * slot,
    timeSlot := 3, maxDelay := 5 }

/-- Exactly the timer stored in `this.ref` is pending. -/
def oneTimerPending (s : LoaderState) : Prop :=
  ∃ r, s.ref = some r ∧ s.timers = [r]


/-! ## Helper lemmas -/

theorem digitChar_toNat {d : Nat} (hd : d < 10) : (digitChar d).toNat - 48 = d := by
  interval_cases d <;> decide

theorem fromDigitsAux_nil (a : Nat) : fromDigitsAux a [] = a := rfl

theorem fromDigitsAux_cons (a : Nat) (c : Char) (cs : List Char) :
    fromDigitsAux a (c :: cs) = fromDigitsAux (a * 10 + (c.toNat - 48)) cs := rfl

theorem fromDigitsAux_natToDigitsAux :
    ∀ fuel n acc a, n ≤ fuel →
      fromDigitsAux a (natToDigitsAux fuel n acc) =
        fromDigitsAux (a * 10 ^ digitLen n + n) acc := by
  intro fuel
  induction fuel with
  | zero =>
    intro n acc a hn
    have hn0 : n = 0 := Nat.le_zero.mp hn
    subst hn0
    simp [natToDigitsAux, digitLen]
  | succ fuel ih =>
    intro n acc a hn
    by_cases h0 : n = 0
    · subst h0
      simp [natToDigitsAux, digitLen]
    · rw [natToDigitsAux, if_neg h0]
      have hdiv : n / 10 < n := Nat.div_lt_self (Nat.pos_of_ne_zero h0) (by omega)
      rw [ih (n / 10) _ a (by omega)]
      rw [fromDigitsAux_cons]
      rw [digitChar_toNat (Nat.mod_lt _ (by omega))]
      congr 1
      have hdm : 10 * (n / 10) + n % 10 = n := Nat.div_add_mod n 10
      have hpow : digitLen n = digitLen (n / 10) + 1 := by
        match n, h0 with
        | m + 1, _ => rw [digitLen]
      rw [hpow, pow_succ]
      set B := a * 10 ^ digitLen (n / 10) with hB
      ring_nf
      omega

theorem decodeDigits_jsNatRepr (n : Nat) : decodeDigits (jsNatRepr n) = n := by
  by_cases h : n = 0
  · subst h; decide
  · unfold jsNatRepr
    rw [if_neg h]
    show fromDigitsAux 0 (natToDigitsAux n n []) = n
    rw [fromDigitsAux_natToDigitsAux n n [] 0 (Nat.le_refl n), fromDigitsAux_nil]
    simp

theorem jsNatRepr_injective {a b : Nat} (h : jsNatRepr a = jsNatRepr b) : a = b := by
  have ha := decodeDigits_jsNatRepr a
  have hb := decodeDigits_jsNatRepr b
  rw [h] at ha
  omega

theorem escapePipes_escapeBackslashes (l : List Char) :
    escapePipes (escapeBackslashes l) = (l.map escBlock).flatten := by
  induction l with
  | nil => simp [escapeBackslashes, escapePipes]
  | cons c cs ih =>
    by_cases hb : c = '\\'
    · subst hb
      simp [escapeBackslashes, escapePipes, escBlock, ih]
    · by_cases hp : c = '|'
      · subst hp
        simp [escapeBackslashes, escapePipes, escBlock, hb, ih]
      · simp [escapeBackslashes, escapePipes, escBlock, hb, hp, ih]

theorem rowToLineLoop_eq (row : List JSValue) :
    ∀ lineBuff, rowToLineLoop row lineBuff = lineBuff ++ row.map _escapeValue := by
  induction row with
  | nil => intro lineBuff; simp [rowToLineLoop]
  | cons v vs ih =>
    intro lineBuff
    rw [rowToLineLoop, ih]
    simp

/-- In the escaper's output every backslash opens a two-character block, so
it is followed by another backslash or by a pipe. -/
theorem escaped_head_backslash (l : List Char) (rest : List Char)
    (h : escapePipes (escapeBackslashes l) = '\\' :: rest) :
    (∃ r, rest = '\\' :: r) ∨ (∃ r, rest = '|' :: r) := by
  cases l with
  | nil => simp [escapeBackslashes, escapePipes] at h
  | cons c cs =>
    by_cases hb : c = '\\'
    · subst hb
      simp only [escapeBackslashes, if_pos rfl] at h
      simp only [escapePipes, if_neg (by decide : ¬ ('\\' = '|'))] at h
      exact Or.inl ⟨_, ((List.cons.injEq _ _ _ _).mp h).2.symm⟩
    · by_cases hp : c = '|'
      · subst hp
        simp only [escapeBackslashes, if_neg hb] at h
        simp only [escapePipes, if_pos rfl] at h
        exact Or.inr ⟨_, ((List.cons.injEq _ _ _ _).mp h).2.symm⟩
      · simp only [escapeBackslashes, if_neg hb] at h
        simp only [escapePipes, if_neg hp] at h
        exact absurd ((List.cons.injEq _ _ _ _).mp h).1 hb

/-- The escaped form of a string is never the `\N` null token. -/
theorem escaped_ne_nulltoken (s : String) : _escapeValue (JSValue.vStr s) ≠ NULLTOKEN := by
  intro h
  have hdata : escapePipes (escapeBackslashes s.data) = ['\\', 'N'] := by
    have := congrArg String.data h
    simpa [_escapeValue, NULLTOKEN] using this
  rcases escaped_head_backslash s.data ['N'] hdata with ⟨r, hr⟩ | ⟨r, hr⟩ <;> simp at hr


theorem strExt {a b : String} (h : a.data = b.data) : a = b := by
  cases a; cases b; exact congrArg String.mk h

theorem strDataAppend (a b : String) : (a ++ b).data = a.data ++ b.data := rfl

theorem strAppendAssoc (a b c : String) : a ++ b ++ c = a ++ (b ++ c) :=
  strExt (by simp only [strDataAppend, List.append_assoc])



theorem jsNatRepr_ne_nulltoken (n : Nat) : jsNatRepr n ≠ NULLTOKEN := by
  intro h
  have hd := decodeDigits_jsNatRepr n
  rw [h] at hd
  have h470 : decodeDigits NULLTOKEN = 470 := by decide
  rw [h470] at hd
  subst hd
  exact absurd h (by decide)

theorem jsNumToString_ne_nulltoken (n : JSNum) : jsNumToString n ≠ NULLTOKEN := by
  cases n with
  | nan => decide
  | int i =>
    cases i with
    | ofNat m => exact jsNatRepr_ne_nulltoken m
    | negSucc m =>
      intro h
      have h2 : (("-" ++ jsNatRepr (m + 1)).data).head? = some '-' := rfl
      rw [show ("-" ++ jsNatRepr (m + 1) : String) = jsNumToString (JSNum.int (Int.negSucc m)) from rfl, h] at h2
      exact absurd h2 (by decide)

/-- C6: for every row the encoded line is the positional values escaped and
joined by the `|` delimiter; null renders as `\N`; a string is escaped
character by character, each literal backslash becoming `\\` and each
literal `|` becoming `\|` (doing the backslash pass first — the concrete
input `"\|"` witnesses the pass order, since the pipe-first order would
yield five characters instead of `\\\|`); and the text handed to the
writer per insert is the line followed by a single `'\n'`. -/
theorem C6_line_encoding :
    (∀ row, insertedText row = String.intercalate "|" (row.map _escapeValue) ++ "\n") ∧
    _escapeValue JSValue.vNull = NULLTOKEN ∧
    _escapeValue JSValue.vUndef = NULLTOKEN ∧
    (∀ s, _escapeValue (JSValue.vStr s) = String.mk ((s.data.map escBlock).flatten)) ∧
    _escapeValue (JSValue.vStr "\\|") = "\\\\\\|" := by
  refine ⟨?_, rfl, rfl, ?_, by decide⟩
  · intro row
    unfold insertedText _rowToLine
    rw [rowToLineLoop_eq]
    simp [DELIMITER, NEWLINE]
  · intro s
    simp only [_escapeValue]
    rw [escapePipes_escapeBackslashes]

/-- C10: the `\N` null sentinel is produced exactly for `null` and
`undefined`; the empty string encodes to an empty field distinct from
`\N`; and non-string scalars — including `0`, `false` and `NaN` — encode
to their JS string conversion, never to the sentinel. -/
theorem C10_null_sentinel_exactly_null_undefined :
    (∀ v, _escapeValue v = NULLTOKEN ↔ (v = JSValue.vNull ∨ v = JSValue.vUndef)) ∧
    _escapeValue (JSValue.vStr "") = "" ∧
    ("" : String) ≠ NULLTOKEN ∧
    _escapeValue (JSValue.vNum (JSNum.int 0)) = "0" ∧
    _escapeValue (JSValue.vBool false) = "false" ∧
    _escapeValue (JSValue.vNum JSNum.nan) = "NaN" ∧
    (∀ n, _escapeValue (JSValue.vNum n) = jsNumToString n) ∧
    (∀ b, _escapeValue (JSValue.vBool b) = jsBoolToString b) := by
  refine ⟨?_, by decide, by decide, by decide, by decide, by decide,
    fun n => rfl, fun b => rfl⟩
  intro v
  constructor
  · intro h
    cases v with
    | vNull => exact Or.inl rfl
    | vUndef => exact Or.inr rfl
    | vStr s => exact absurd h (escaped_ne_nulltoken s)
    | vNum n => exact absurd h (jsNumToString_ne_nulltoken n)
    | vBool b => cases b <;> exact absurd h (by decide)
  · rintro (rfl | rfl) <;> rfl

/-- C2: a read-stage or upload-stage failure terminates the flush operation
with that error, runs no later stage and never unlinks the local file
(the exact traces show no upload/load/unlink action after a read error and
no load/unlink action after an upload error); once the upload succeeds the
unlink is dispatched at once — before either completion, hence not waiting
for the load command — and it is dispatched whatever `o.loadErr` is, so a
load failure still leaves the file deleted. -/
theorem C2_stage_failure_policy (cfg : LoaderConfig) (lid : Nat) (fn : String)
    (start : Nat) (o : Outcomes) :
    (∀ e, o.readErr = some e →
      runFlushOp cfg lid fn start o =
        [Action.readCall (pathJoin cfg.pathToLogs fn),
         Action.emitFlush (flushEventPayload lid start (some e) o.body)] ∧
      ∀ p, ¬ deletesFile (runFlushOp cfg lid fn start o) p) ∧
    (∀ e, o.readErr = none → o.uploadErr = some e →
      runFlushOp cfg lid fn start o =
        [Action.readCall (pathJoin cfg.pathToLogs fn),
         Action.uploadCall fn cfg.awsBucketName,
         Action.emitFlush (flushEventPayload lid start (some e) o.uploadData)] ∧
      ∀ p, ¬ deletesFile (runFlushOp cfg lid fn start o) p) ∧
    (o.readErr = none → o.uploadErr = none →
      runFlushOp cfg lid fn start o =
        Action.readCall (pathJoin cfg.pathToLogs fn) ::
        Action.uploadCall fn cfg.awsBucketName ::
        Action.unlinkCall (pathJoin cfg.pathToLogs fn) ::
        Action.loadCall (_getCopyQuery cfg fn) ::
        (if o.unlinkCompletesFirst
         then [Action.emitFlush (flushEventPayload lid start o.unlinkErr none),
               Action.emitFlush (flushEventPayload lid start o.loadErr o.loadResult)]
         else [Action.emitFlush (flushEventPayload lid start o.loadErr o.loadResult),
               Action.emitFlush (flushEventPayload lid start o.unlinkErr none)]) ∧
      deletesFile (runFlushOp cfg lid fn start o) (pathJoin cfg.pathToLogs fn)) := by
  refine ⟨?_, ?_, ?_⟩
  · intro e he
    constructor
    · simp [runFlushOp, he]
    · intro p
      simp [deletesFile, runFlushOp, he]
  · intro e hr hu
    constructor
    · simp [runFlushOp, hr, hu]
    · intro p
      simp [deletesFile, runFlushOp, hr, hu]
  · intro hr hu
    constructor
    · simp [runFlushOp, hr, hu]
    · simp [deletesFile, runFlushOp, hr, hu]

/-- Witness for C2 at concrete inputs: the successful operation deletes the
rotated file, the read-failure and upload-failure operations do not, and
a load-command failure (upload succeeded) still deletes it. -/
theorem C2_stage_failure_policy_witness :
    deletesFile (runFlushOp cfgEx 1 "events_1_7.log" 3 oSuccess)
      (pathJoin "logs" "events_1_7.log") ∧
    deletesFile (runFlushOp cfgEx 1 "events_1_7.log" 3 oLoadFail)
      (pathJoin "logs" "events_1_7.log") ∧
    ¬ deletesFile (runFlushOp cfgEx 1 "events_1_7.log" 3 oReadFail)
      (pathJoin "logs" "events_1_7.log") ∧
    ¬ deletesFile (runFlushOp cfgEx 1 "events_1_7.log" 3 oUploadFail)
      (pathJoin "logs" "events_1_7.log") := by
  refine ⟨?_, ?_, ?_, ?_⟩
  · exact ((C2_stage_failure_policy cfgEx 1 "events_1_7.log" 3 oSuccess).2.2 rfl rfl).2
  · exact ((C2_stage_failure_policy cfgEx 1 "events_1_7.log" 3 oLoadFail).2.2 rfl rfl).2
  · exact ((C2_stage_failure_policy cfgEx 1 "events_1_7.log" 3 oReadFail).1 "ENOENT" rfl).2 _
  · exact ((C2_stage_failure_policy cfgEx 1 "events_1_7.log" 3 oUploadFail).2.1 "S3Error" rfl rfl).2 _

/-- C1 (evaluation at the failing input): one flush of a non-empty buffer
increments `activeFlushOps` exactly once, but a fully successful flush
operation reaches `_decrimentActiveFlushOpsAndEmitFlushEvent` from both
the unlink callback and the load-command callback, emitting the terminal
`'flush'` event twice and decrementing twice, so the counter ends at
`1 - 2 = -1 < 0`. -/
theorem C1_success_path_double_terminal :
    (flush cfgEx 3 (insert cfgEx 2 [JSValue.vNull] (initState cfgEx 1))).activeFlushOps = 1 ∧
    (emittedEvents (runFlushOp cfgEx 1 "events_1_7.log" 3 oSuccess)).length = 2 ∧
    (1 : Int) - ((emittedEvents (runFlushOp cfgEx 1 "events_1_7.log" 3 oSuccess)).length : Int) < 0 ∧
    (emittedEvents (runFlushOp cfgEx 1 "events_1_7.log" 3 oReadFail)).length = 1 ∧
    (emittedEvents (runFlushOp cfgEx 1 "events_1_7.log" 3 oUploadFail)).length = 1 := by
  decide

/-- C3 fails on the code: in a successful operation over the rotated file
`events_1_7.log`, no emitted `'flush'` event carries that source file
identifier in its third argument — the source passes the literal `''`. -/
theorem C3_src_file_arg_empty_cex :
    ¬ (∀ ev ∈ emittedEvents (runFlushOp cfgEx 1 "events_1_7.log" 3 oSuccess),
        ev.srcFileArg = "events_1_7.log") := by
  decide

/-- C3 as amended: every terminal `'flush'` event carries, in the emitted
argument order, the error or null, the result payload, the *empty string*
in place of the source file identifier, the operation's start timestamp,
and the loader reference. -/
theorem C3_flush_event_shape (cfg : LoaderConfig) (lid : Nat) (fn : String)
    (start : Nat) (o : Outcomes) :
    ∀ ev ∈ emittedEvents (runFlushOp cfg lid fn start o),
      ev.srcFileArg = "" ∧ ev.start = start ∧ ev.loaderId = lid := by
  intro ev hev
  rcases o with ⟨re, bd, ue, ud, ke, le, lr, uf⟩
  cases re with
  | some e =>
    simp [runFlushOp, emittedEvents] at hev
    subst hev
    exact ⟨rfl, rfl, rfl⟩
  | none =>
    cases ue with
    | some e =>
      simp [runFlushOp, emittedEvents] at hev
      subst hev
      exact ⟨rfl, rfl, rfl⟩
    | none =>
      cases uf <;>
        · simp [runFlushOp, emittedEvents] at hev
          rcases hev with hev | hev <;> subst hev <;> exact ⟨rfl, rfl, rfl⟩

/-- Witness for the amended C3 at a concrete emitted event. -/
theorem C3_flush_event_shape_witness :
    (flushEventPayload 1 3 none none).srcFileArg = "" ∧
    (flushEventPayload 1 3 none none).start = 3 ∧
    (flushEventPayload 1 3 none none).loaderId = 1 :=
  C3_flush_event_shape cfgEx 1 "events_1_7.log" 3 oSuccess
    (flushEventPayload 1 3 none none) (by decide)



/-- C4: each insert increments the buffered row count by exactly one while
below the threshold; when the count reaches the threshold the pending idle
timer (`this.ref`) is cancelled and rotation+flush happens immediately,
resetting the count to exactly zero; and across the loader's operations
the count becomes zero only together with a rotation. -/
theorem C4_insert_counter (cfg : LoaderConfig) (now : Nat) (row : List JSValue)
    (s : LoaderState) :
    (s.numberOfEventsInFile + 1 < cfg.threshold →
      (insert cfg now row s).numberOfEventsInFile = s.numberOfEventsInFile + 1 ∧
      (insert cfg now row s).rotations = s.rotations ∧
      (insert cfg now row s).timers = s.timers) ∧
    (cfg.threshold ≤ s.numberOfEventsInFile + 1 →
      (insert cfg now row s).numberOfEventsInFile = 0 ∧
      (insert cfg now row s).rotations = s.rotations ++ [(s.fileName, now)] ∧
      (insert cfg now row s).timers =
        s.nextTimerId :: (match s.ref with
          | some r => s.timers.erase r
          | none => s.timers)) ∧
    ((insert cfg now row s).numberOfEventsInFile = 0 →
      (insert cfg now row s).rotations = s.rotations ++ [(s.fileName, now)]) ∧
    (0 < s.numberOfEventsInFile →
      (flush cfg now s).numberOfEventsInFile = 0 ∧
      (flush cfg now s).rotations = s.rotations ++ [(s.fileName, now)]) ∧
    (∀ t, 0 < s.numberOfEventsInFile →
      (fireTimer cfg t now s).numberOfEventsInFile = 0 →
      (fireTimer cfg t now s).rotations = s.rotations ++ [(s.fileName, now)]) ∧
    (close s).numberOfEventsInFile = s.numberOfEventsInFile := by
  refine ⟨?_, ?_, ?_, ?_, ?_, ?_⟩
  · intro h
    have hc : ¬ (cfg.threshold ≤ s.numberOfEventsInFile + 1) := by omega
    refine ⟨?_, ?_, ?_⟩ <;> simp [insert, hc]
  · intro h
    refine ⟨?_, ?_, ?_⟩ <;>
      simp [insert, h, flush, clearTimeoutRef, startIdleFlushMonitor]
  · intro h0
    by_cases h : cfg.threshold ≤ s.numberOfEventsInFile + 1
    · simp [insert, h, flush, clearTimeoutRef, startIdleFlushMonitor]
    · exfalso
      simp [insert, h] at h0
  · intro h
    constructor <;> simp [flush, h, startIdleFlushMonitor]
  · intro t h h0
    by_cases ht : t ∈ s.timers
    · simp [fireTimer, ht, flush, h, startIdleFlushMonitor]
    · exfalso
      simp [fireTimer, ht] at h0
      omega
  · simp [close, clearTimeoutRef]

/-- Witness for C4: below the threshold (2) one insert takes the count from
0 to 1 with no rotation; at the threshold the second insert resets it to 0
with a rotation. -/
theorem C4_insert_counter_witness :
    (insert cfgEx 5 [] (initState cfgEx 0)).numberOfEventsInFile = 0 + 1 ∧
    (insert cfgEx 6 [] (insert cfgEx 5 [] (initState cfgEx 0))).numberOfEventsInFile = 0 := by
  constructor
  · exact ((C4_insert_counter cfgEx 5 [] (initState cfgEx 0)).1 (by decide)).1
  · exact ((C4_insert_counter cfgEx 6 [] (insert cfgEx 5 [] (initState cfgEx 0))).2.1
      (by decide)).1

/-- C5 fails on the code: a direct external call to `flush()` arms a new
idle timer without cancelling the pending one, so right after
construction one such call leaves two timers pending. -/
theorem C5_two_pending_timers_cex :
    ¬ ((flush cfgEx 2 (initState cfgEx 1)).timers.length ≤ 1) := by decide

/-- C5 as amended: a `flush()` on an empty buffer performs no rotation
(file name, counter, active-operations count and rotation log unchanged)
and every `flush()` ends by arming exactly one new idle timer; the
single-pending-timer invariant holds along `insert` and timer firings —
the threshold path cancels `this.ref` first and a firing timer consumes
itself — but a direct external `flush()` call leaves the previously armed
timer pending (see the counterexample). -/
theorem C5_flush_noop_and_single_rearm (cfg : LoaderConfig) (now : Nat)
    (row : List JSValue) (t : Nat) (s : LoaderState) :
    (s.numberOfEventsInFile = 0 →
      (flush cfg now s).fileName = s.fileName ∧
      (flush cfg now s).numberOfEventsInFile = 0 ∧
      (flush cfg now s).activeFlushOps = s.activeFlushOps ∧
      (flush cfg now s).rotations = s.rotations) ∧
    ((flush cfg now s).timers = s.nextTimerId :: s.timers ∧
     (flush cfg now s).ref = some s.nextTimerId) ∧
    oneTimerPending (initState cfg now) ∧
    (oneTimerPending s → oneTimerPending (insert cfg now row s)) ∧
    (oneTimerPending s → oneTimerPending (fireTimer cfg t now s)) := by
  refine ⟨?_, ?_, ?_, ?_, ?_⟩
  · intro h
    refine ⟨?_, ?_, ?_, ?_⟩ <;> simp [flush, h, startIdleFlushMonitor]
  · by_cases h : 0 < s.numberOfEventsInFile <;>
      constructor <;> simp [flush, h, startIdleFlushMonitor]
  · exact ⟨0, rfl, rfl⟩
  · rintro ⟨r, hr, ht⟩
    by_cases hc : cfg.threshold ≤ s.numberOfEventsInFile + 1
    · refine ⟨s.nextTimerId, ?_, ?_⟩ <;>
        simp [insert, hc, flush, clearTimeoutRef, startIdleFlushMonitor, hr, ht]
    · refine ⟨r, ?_, ?_⟩ <;> simp [insert, hc, hr, ht]
  · rintro ⟨r, hr, ht⟩
    by_cases htm : t ∈ s.timers
    · have htr : t = r := by
        rw [ht] at htm
        simpa using htm
      subst htr
      by_cases hn : 0 < s.numberOfEventsInFile <;>
        · refine ⟨s.nextTimerId, ?_, ?_⟩ <;>
            simp [fireTimer, htm, flush, hn, startIdleFlushMonitor, ht]
    · have htr : t ≠ r := by
        rw [ht] at htm
        simpa using htm
      refine ⟨r, ?_, ?_⟩ <;> simp [fireTimer, htm, hr, ht, htr]

/-- Witness for the amended C5: an empty-buffer `flush()` leaves the
active-operations count unchanged, and the invariant transports across an
insert from the freshly constructed state. -/
theorem C5_flush_noop_witness :
    (flush cfgEx 2 (initState cfgEx 1)).activeFlushOps = (initState cfgEx 1).activeFlushOps ∧
    oneTimerPending (insert cfgEx 5 [] (initState cfgEx 1)) := by
  constructor
  · exact ((C5_flush_noop_and_single_rearm cfgEx 2 [] 0 (initState cfgEx 1)).1 rfl).2.2.1
  · exact (C5_flush_noop_and_single_rearm cfgEx 5 [] 0 (initState cfgEx 1)).2.2.2.1
      ⟨0, rfl, rfl⟩

/-- C7 fails on the code byte for byte: the source writes a space between
the table name and the opening parenthesis, the claimed shape has none. -/
theorem C7_copy_query_shape_cex :
    _getCopyQuery cfgEx "events_1_7.log" ≠ copyQuerySpecShape cfgEx "events_1_7.log" := by
  decide

/-- C7 as amended: for every configuration and file name the issued command
equals, byte for byte, the claimed shape with a single space inserted
between the table name and the field-list parenthesis. -/
theorem C7_copy_query_spaced_shape (cfg : LoaderConfig) (fn : String) :
    _getCopyQuery cfg fn = copyQuerySpacedShape cfg fn := by
  unfold _getCopyQuery copyQuerySpacedShape
  simp only [strAppendAssoc]
  rw [show (") FROM 's3://" : String) = ")" ++ (" FROM " ++ ("'" ++ "s3://")) from by decide]
  rw [show ("' CREDENTIALS 'aws_access_key_id=" : String) =
    "'" ++ (" CREDENTIALS " ++ "'aws_access_key_id=") from by decide]
  rw [show (";aws_secret_access_key=" : String) = ";" ++ "aws_secret_access_key=" from by decide]
  rw [show ("' ESCAPE" : String) = "'" ++ " ESCAPE" from by decide]
  simp only [strAppendAssoc]

/-- C8 fails on the code: two rotations that observe the same clock value
(same `Date.now()` millisecond) generate the same file identifier — here a
threshold-1 loader rotates twice at clock 5. -/
theorem C8_same_clock_duplicate_cex :
    (insert cfgT1 5 [] (insert cfgT1 5 [] (initState cfgT1 1))).generated =
      ["t1_5_9.log", "t1_5_9.log"] ∧
    ¬ (insert cfgT1 5 [] (insert cfgT1 5 [] (initState cfgT1 1))).generated.Nodup := by
  decide

/-- C8 as amended: every rotation generates an identifier of the exact form
`<tableName>_<epochMillis>_<processId>.log` (recorded in `generated` and
installed as the new current file), and identifiers from two rotations are
distinct whenever their observed clock values differ — equal clock
readings yield equal identifiers (see the counterexample). -/
theorem C8_filename_form_and_uniqueness (cfg : LoaderConfig) (now t1 t2 : Nat)
    (s : LoaderState) (hne : t1 ≠ t2) :
    _getLogFileName cfg now =
      cfg.tableName ++ "_" ++ jsNatRepr now ++ "_" ++ jsNatRepr cfg.pid ++ ".log" ∧
    (0 < s.numberOfEventsInFile →
      (flush cfg now s).generated = s.generated ++ [_getLogFileName cfg now] ∧
      (flush cfg now s).fileName = _getLogFileName cfg now) ∧
    _getLogFileName cfg t1 ≠ _getLogFileName cfg t2 := by
  refine ⟨rfl, ?_, ?_⟩
  · intro h
    constructor <;> simp [flush, h, startIdleFlushMonitor]
  · intro heq
    apply hne
    apply jsNatRepr_injective
    apply strExt
    have hd := congrArg String.data heq
    simp only [_getLogFileName, strDataAppend, List.append_assoc] at hd
    have h1 := List.append_cancel_left hd
    have h2 := List.append_cancel_left h1
    exact List.append_cancel_right h2

/-- Witness for the amended C8 at distinct clock values 1 and 2. -/
theorem C8_filename_witness :
    _getLogFileName cfgEx 1 ≠ _getLogFileName cfgEx 2 :=
  (C8_filename_form_and_uniqueness cfgEx 0 1 2 (initState cfgEx 0) (by decide)).2.2

theorem scheduledRetries_eq (o : RetryOptions) :
    ∀ n, scheduledRetries o n = (List.range (min n o.maxRetries)).map (retryDelay o) := by
  intro n
  induction n with
  | zero => simp [scheduledRetries]
  | succ n ih =>
    unfold scheduledRetries at ih ⊢
    rw [List.range_succ, List.filterMap_append, ih]
    by_cases h : n < o.maxRetries
    · have hmin1 : min (n + 1) o.maxRetries = n + 1 := by omega
      have hmin2 : min n o.maxRetries = n := by omega
      rw [hmin1, hmin2, List.range_succ, List.map_append]
      simp [onFlushOpFailure, h]
    · have hmin1 : min (n + 1) o.maxRetries = o.maxRetries := by omega
      have hmin2 : min n o.maxRetries = o.maxRetries := by omega
      rw [hmin1, hmin2]
      simp [onFlushOpFailure, h]

/-- C9 (the Retry Policy is modelled from the spec, its implementation file
being absent from `src/`): over an always-failing Flush Operation lineage
with at least `maxRetries` failures, exactly `maxRetries` retried flushes
are scheduled and scheduling then stops; the delay of retry attempt `k` is
`min(maxDelay, retryCalculation(k, timeSlot))`, hence every scheduled
delay is at most `maxDelay`. -/
theorem C9_retry_schedule (o : RetryOptions) (failureCount : Nat)
    (h : o.maxRetries ≤ failureCount) :
    scheduledRetries o failureCount = (List.range o.maxRetries).map (retryDelay o) ∧
    (scheduledRetries o failureCount).length = o.maxRetries ∧
    (∀ k, k < o.maxRetries →
      (scheduledRetries o failureCount)[k]? =
        some (min o.maxDelay (o.retryCalculation k o.timeSlot))) ∧
    (∀ d ∈ scheduledRetries o failureCount, d ≤ o.maxDelay) := by
  have hmin : min failureCount o.maxRetries = o.maxRetries := by omega
  have he : scheduledRetries o failureCount = (List.range o.maxRetries).map (retryDelay o) := by
    rw [scheduledRetries_eq, hmin]
  refine ⟨he, ?_, ?_, ?_⟩
  · rw [he]; simp
  · intro k hk
    rw [he, List.getElem?_map, List.getElem?_range hk]
    rfl
  · intro d hd
    rw [he] at hd
    simp only [List.mem_map] at hd
    obtain ⟨k, hk, rfl⟩ := hd
    exact min_le_left _ _

/-- Witness for C9: two allowed retries with binary backoff over a 3 ms
slot clamped at 5 ms schedule delays 3 and 5 over four failures. -/
theorem C9_retry_schedule_witness :
    scheduledRetries oEx 4 = [3, 5] ∧ (scheduledRetries oEx 4).length = 2 := by
  have h := C9_retry_schedule oEx 4 (by decide)
  constructor
  · rw [h.1]; decide
  · exact h.2.1


end RBI
